import Mathlib

/-!
Shallow embedding of the rcutils time subsystem (time_common.c, time_unix.c,
time_win32.c) and proofs about its monotonicity guard, overflow checks and
thread-local lifecycle.

Machine 64-bit signed integers are modelled as `Int` with explicit
two's-complement wrapping (`wrap64`) applied wherever the C code stores an
arithmetic result into an `int64_t`. Return codes are an inductive type,
mirroring the distinct `RCUTILS_RET_*` macros. The OS clock sample is an
input (`timespec`), so each clock-read function is a pure function of the
injected sample and (for the steady clock) the calling thread's
last-steady-timestamp cell.
-/

/-- The distinct `rcutils_ret_t` codes used by the time subsystem. -/
inductive rcutils_ret where
  | RCUTILS_RET_OK
  | RCUTILS_RET_ERROR
  | RCUTILS_RET_BAD_ALLOC
  | RCUTILS_RET_INVALID_ARGUMENT
  | RCUTILS_NON_MONOTONIC_STEADY_TIME
  | RCUTILS_CALCULATION_OVERFLOW
deriving DecidableEq, Repr

open rcutils_ret

/-- The constant `INT64_MAX`. -/
def INT64_MAX : Int := 2 ^ 63 - 1

/-- The constant `INT64_MIN`. -/
def INT64_MIN : Int := -(2 ^ 63)

/-- Two's-complement wrapping of an integer into the `int64_t` range,
the semantics of storing an arithmetic result into an `int64_t`. -/
def wrap64 (x : Int) : Int := (x + 2 ^ 63) % 2 ^ 64 - 2 ^ 63

/-- A `struct timespec` clock sample: seconds and sub-second nanoseconds. -/
structure timespec where
  tv_sec : Int
  tv_nsec : Int
deriving DecidableEq, Repr

/-- The `__WOULD_BE_NEGATIVE(seconds, subseconds)` macro from time_unix.c:
`seconds < 0 || (subseconds < 0 && seconds == 0)`. -/
def __WOULD_BE_NEGATIVE (seconds subseconds : Int) : Bool :=
  decide (seconds < 0) || (decide (subseconds < 0) && decide (seconds = 0))

/-!
## MonotonicityGuard, native `_Thread_local` backend (time_common.c)

In this backend the per-thread cell is a plain `int64_t` slot initialized to
`INT64_MIN`; get/set are plain memory accesses that always succeed (the
pointer passed to get is the address of a local variable, never null).
`__rcutils_check_steady_time_monotonicity_thread_local` reads the cell,
fails with `RCUTILS_NON_MONOTONIC_STEADY_TIME` when the last value is
strictly greater than the candidate, and otherwise stores the candidate.
The cell is threaded explicitly: input `last`, output the new cell value.
-/

/-- Function `__rcutils_check_steady_time_monotonicity_thread_local` from
time_common.c (native thread-local backend): returns the ret code and the
new value of the calling thread's cell. -/
def __rcutils_check_steady_time_monotonicity_thread_local
    (current_steady_timestamp : Int) (last : Int) : rcutils_ret × Int :=
  if last > current_steady_timestamp then
    (RCUTILS_NON_MONOTONIC_STEADY_TIME, last)
  else
    (RCUTILS_RET_OK, current_steady_timestamp)

/-!
## ClockSource, unix (time_unix.c), sanity checks enabled

Each function takes `nowNull` (whether the output pointer is NULL), the
injected OS clock sample, and for the steady clock the thread's cell.
The output destination is `Option Int`: `none` means the C code never
wrote through `*now`.
-/

/-- Function `rcutils_system_time_now` from time_unix.c with
`RCUTILS_DISABLE_TIME_SANITY_CHECKS` off. Result: (ret code, value written
to `*now` if any). -/
def rcutils_system_time_now (nowNull : Bool) (ts : timespec) :
    rcutils_ret × Option Int :=
  if nowNull then (RCUTILS_RET_INVALID_ARGUMENT, none)
  else if __WOULD_BE_NEGATIVE ts.tv_sec ts.tv_nsec then
    (RCUTILS_RET_ERROR, none)
  else
    let total_seconds_in_ns := wrap64 (ts.tv_sec * 1000000000)
    let total_ns := wrap64 (total_seconds_in_ns + ts.tv_nsec)
    if decide (ts.tv_sec > INT64_MAX / 1000000000) ||
        (decide (ts.tv_nsec > 0) &&
         decide (total_seconds_in_ns > INT64_MAX - ts.tv_nsec)) then
      (RCUTILS_RET_ERROR, none)
    else
      (RCUTILS_RET_OK, some total_ns)

/-- Function `rcutils_steady_time_now` from time_unix.c with sanity checks on,
with the
native thread-local backend. Result: (ret code, value written to `*now` if
any, new value of the thread's cell). -/
def rcutils_steady_time_now (nowNull : Bool) (ts : timespec) (last : Int) :
    rcutils_ret × Option Int × Int :=
  if nowNull then (RCUTILS_RET_INVALID_ARGUMENT, none, last)
  else if __WOULD_BE_NEGATIVE ts.tv_sec ts.tv_nsec then
    (RCUTILS_RET_ERROR, none, last)
  else
    let total_seconds_in_ns := wrap64 (ts.tv_sec * 1000000000)
    let total_ns := wrap64 (total_seconds_in_ns + ts.tv_nsec)
    if decide (ts.tv_sec > INT64_MAX / 1000000000) ||
        (decide (ts.tv_nsec > 0) &&
         decide (total_seconds_in_ns > INT64_MAX - ts.tv_nsec)) then
      (RCUTILS_CALCULATION_OVERFLOW, none, last)
    else
      let c := __rcutils_check_steady_time_monotonicity_thread_local total_ns last
      if c.1 = RCUTILS_RET_OK then (RCUTILS_RET_OK, some total_ns, c.2)
      else (c.1, none, c.2)

/-!
## ClockSource, unix, sanity checks compiled out
(`RCUTILS_DISABLE_TIME_SANITY_CHECKS` true): no overflow check, no
monotonicity guard, no thread-local state.
-/

/-- Function `rcutils_system_time_now` with `RCUTILS_DISABLE_TIME_SANITY_CHECKS`. -/
def rcutils_system_time_now_sanity_disabled (nowNull : Bool) (ts : timespec) :
    rcutils_ret × Option Int :=
  if nowNull then (RCUTILS_RET_INVALID_ARGUMENT, none)
  else if __WOULD_BE_NEGATIVE ts.tv_sec ts.tv_nsec then
    (RCUTILS_RET_ERROR, none)
  else
    let total_seconds_in_ns := wrap64 (ts.tv_sec * 1000000000)
    let total_ns := wrap64 (total_seconds_in_ns + ts.tv_nsec)
    (RCUTILS_RET_OK, some total_ns)

/-- Function `rcutils_steady_time_now` with `RCUTILS_DISABLE_TIME_SANITY_CHECKS`. -/
def rcutils_steady_time_now_sanity_disabled (nowNull : Bool) (ts : timespec) :
    rcutils_ret × Option Int :=
  if nowNull then (RCUTILS_RET_INVALID_ARGUMENT, none)
  else if __WOULD_BE_NEGATIVE ts.tv_sec ts.tv_nsec then
    (RCUTILS_RET_ERROR, none)
  else
    let total_seconds_in_ns := wrap64 (ts.tv_sec * 1000000000)
    let total_ns := wrap64 (total_seconds_in_ns + ts.tv_nsec)
    (RCUTILS_RET_OK, some total_ns)

/-!
## MonotonicityGuard, pthread key backend (time_common.c, third branch)

State of the process/thread as the pthread backend sees it, for one calling
thread:
- `once_done` / `keys_ret`: the `pthread_once` guard and the recorded result
  `__make_pthread_keys_ret` of the one-time `__make_pthread_keys` run;
- `cell`: what `pthread_getspecific` returns for the calling thread —
  `none` when no cell pointer was ever stored (or it was reset to NULL);
- `deallocs`: how many times `allocator.deallocate` has been called, to
  state absence of double-release.

OS and allocator outcomes are injected per call through `pthread_env`:
the `pthread_key_create` result (used only if the once-routine actually
runs), whether `allocator.allocate` returns a non-null pointer, and the
`pthread_setspecific` result. `pthread_once` itself is modelled as
succeeding: its once_control is the static `PTHREAD_ONCE_INIT` object, so
its EINVAL branch is unreachable.
-/

/-- Outcome of `pthread_key_create` inside `__make_pthread_keys`. -/
inductive key_create_result where
  | success
  | eagain
  | enomem
  | other
deriving DecidableEq, Repr

/-- Outcome of `pthread_setspecific` inside `__set_last_steady_timestamp`. -/
inductive set_specific_result where
  | success
  | enomem
  | einval
deriving DecidableEq, Repr

/-- A heap cell `__last_steady_timestamp_storage_t`: the timestamp plus the
allocator that created it (allocators are identified by a tag). -/
structure __last_steady_timestamp_storage_t where
  timestamp : Int
  self_allocator : Nat
deriving DecidableEq, Repr

/-- The pthread-backend state visible to one calling thread. -/
structure pthread_state where
  once_done : Bool
  keys_ret : rcutils_ret
  cell : Option __last_steady_timestamp_storage_t
  deallocs : Nat
deriving DecidableEq, Repr

/-- Fresh process state: `PTHREAD_ONCE_INIT`,
`__make_pthread_keys_ret = RCUTILS_RET_OK`, no cell stored. -/
def pthread_state.fresh : pthread_state :=
  { once_done := false, keys_ret := RCUTILS_RET_OK, cell := none, deallocs := 0 }

/-- Injected OS/allocator outcomes for one call into the pthread backend. -/
structure pthread_env where
  key_create : key_create_result
  alloc_ok : Bool
  set_result : set_specific_result
deriving DecidableEq, Repr

/-- An environment in which every OS call and allocation succeeds. -/
def pthread_env.good : pthread_env :=
  { key_create := .success, alloc_ok := true, set_result := .success }

/-- The tag of `rcutils_get_default_allocator()`. -/
def default_allocator_id : Nat := 0

/-- Function `__make_pthread_keys` from time_common.c: the value it stores into
`__make_pthread_keys_ret` for each `pthread_key_create` outcome. -/
def __make_pthread_keys (r : key_create_result) : rcutils_ret :=
  match r with
  | .success => RCUTILS_RET_OK
  | .eagain => RCUTILS_RET_ERROR
  | .enomem => RCUTILS_RET_BAD_ALLOC
  | .other => RCUTILS_RET_ERROR

/-- Function `__set_last_steady_timestamp` from time_common.c: the ret code for each
`pthread_setspecific` outcome. -/
def __set_last_steady_timestamp_ret (r : set_specific_result) : rcutils_ret :=
  match r with
  | .success => RCUTILS_RET_OK
  | .enomem => RCUTILS_RET_BAD_ALLOC
  | .einval => RCUTILS_RET_ERROR

/-- Function `__ensure_last_steady_timestamp_storage` from time_common.c: run
`pthread_once`, bail out on a recorded key-creation failure, then allocate
and install the calling thread's cell if it does not exist yet. -/
def __ensure_last_steady_timestamp_storage (allocator : Nat) (e : pthread_env)
    (s : pthread_state) : rcutils_ret × pthread_state :=
  let s1 := if s.once_done then s
    else { s with once_done := true, keys_ret := __make_pthread_keys e.key_create }
  if s1.keys_ret ≠ RCUTILS_RET_OK then (s1.keys_ret, s1)
  else
    match s1.cell with
    | some _ => (RCUTILS_RET_OK, s1)
    | none =>
      if e.alloc_ok then
        let c : __last_steady_timestamp_storage_t :=
          { timestamp := INT64_MIN, self_allocator := allocator }
        match e.set_result with
        | .success => (RCUTILS_RET_OK, { s1 with cell := some c })
        | .enomem => (RCUTILS_RET_BAD_ALLOC, s1)
        | .einval => (RCUTILS_RET_ERROR, s1)
      else
        (RCUTILS_RET_BAD_ALLOC, s1)

/-- Function `__destroy_last_steady_timestamp_storage` from time_common.c: if the
calling thread has a cell, deallocate it with the allocator it remembers and
store NULL under the key; otherwise do nothing. On a `pthread_setspecific`
failure the (now freed) pointer stays under the key, as in the C code. -/
def __destroy_last_steady_timestamp_storage (set_result : set_specific_result)
    (s : pthread_state) : rcutils_ret × pthread_state :=
  match s.cell with
  | some _ =>
    let s1 := { s with deallocs := s.deallocs + 1 }
    match set_result with
    | .success => (RCUTILS_RET_OK, { s1 with cell := none })
    | .enomem => (RCUTILS_RET_BAD_ALLOC, s1)
    | .einval => (RCUTILS_RET_ERROR, s1)
  | none => (RCUTILS_RET_OK, s)

/-- Function `__rcutils_time_common_get_last_steady_timestamp_thread_local` (pthread
backend): ensure the storage with the default allocator, then read the
cell's timestamp (`none` as second component when nothing was read). -/
def __rcutils_time_common_get_last_steady_timestamp_pthread (e : pthread_env)
    (s : pthread_state) : rcutils_ret × Option Int × pthread_state :=
  let r := __ensure_last_steady_timestamp_storage default_allocator_id e s
  if r.1 ≠ RCUTILS_RET_OK then (r.1, none, r.2)
  else
    match r.2.cell with
    | none => (RCUTILS_RET_ERROR, none, r.2)
    | some c => (RCUTILS_RET_OK, some c.timestamp, r.2)

/-- Function `__rcutils_time_common_set_last_steady_timestamp_thread_local` (pthread
backend): ensure the storage, write the timestamp through the cell pointer,
then `pthread_setspecific` the same pointer again. -/
def __rcutils_time_common_set_last_steady_timestamp_pthread
    (new_last_steady_timestamp : Int) (e : pthread_env)
    (s : pthread_state) : rcutils_ret × pthread_state :=
  let r := __ensure_last_steady_timestamp_storage default_allocator_id e s
  if r.1 ≠ RCUTILS_RET_OK then (r.1, r.2)
  else
    match r.2.cell with
    | none => (RCUTILS_RET_ERROR, r.2)
    | some c =>
      let s2 := { r.2 with cell := some { c with timestamp := new_last_steady_timestamp } }
      (__set_last_steady_timestamp_ret e.set_result, s2)

/-- Function `__rcutils_check_steady_time_monotonicity_thread_local` specialised to
the pthread backend. -/
def __rcutils_check_steady_time_monotonicity_pthread (e : pthread_env)
    (current_steady_timestamp : Int) (s : pthread_state) :
    rcutils_ret × pthread_state :=
  let g := __rcutils_time_common_get_last_steady_timestamp_pthread e s
  match g.2.1 with
  | none => (g.1, g.2.2)
  | some last =>
    if last > current_steady_timestamp then
      (RCUTILS_NON_MONOTONIC_STEADY_TIME, g.2.2)
    else
      __rcutils_time_common_set_last_steady_timestamp_pthread
        current_steady_timestamp e g.2.2

/-- Function `rcutils_steady_time_now_thread_specific_init` (pthread backend). -/
def rcutils_steady_time_now_thread_specific_init (custom_allocator : Nat)
    (e : pthread_env) (s : pthread_state) : rcutils_ret × pthread_state :=
  __ensure_last_steady_timestamp_storage custom_allocator e s

/-- Function `rcutils_steady_time_now_thread_specific_fini` (pthread backend). -/
def rcutils_steady_time_now_thread_specific_fini
    (set_result : set_specific_result) (s : pthread_state) :
    rcutils_ret × pthread_state :=
  __destroy_last_steady_timestamp_storage set_result s

/-- Function `rcutils_steady_time_now` from time_unix.c, sanity checks on, pthread
backend for the thread-local cell. -/
def rcutils_steady_time_now_pthread (nowNull : Bool) (ts : timespec)
    (e : pthread_env) (s : pthread_state) :
    rcutils_ret × Option Int × pthread_state :=
  if nowNull then (RCUTILS_RET_INVALID_ARGUMENT, none, s)
  else if __WOULD_BE_NEGATIVE ts.tv_sec ts.tv_nsec then
    (RCUTILS_RET_ERROR, none, s)
  else
    let total_seconds_in_ns := wrap64 (ts.tv_sec * 1000000000)
    let total_ns := wrap64 (total_seconds_in_ns + ts.tv_nsec)
    if decide (ts.tv_sec > INT64_MAX / 1000000000) ||
        (decide (ts.tv_nsec > 0) &&
         decide (total_seconds_in_ns > INT64_MAX - ts.tv_nsec)) then
      (RCUTILS_CALCULATION_OVERFLOW, none, s)
    else
      let c := __rcutils_check_steady_time_monotonicity_pthread e total_ns s
      if c.1 = RCUTILS_RET_OK then (RCUTILS_RET_OK, some total_ns, c.2)
      else (c.1, none, c.2)

/-!
## ClockSource, win32 steady clock (time_win32.c), sanity checks on

`QueryPerformanceFrequency`/`QueryPerformanceCounter` results are injected.
C integer division/remainder on `int64_t` truncate toward zero: `Int.tdiv`
and `Int.tmod`.
-/

/-- Function `rcutils_steady_time_now` from time_win32.c with sanity checks on.
`cpu_frequency` and `performance_count` are the injected QuadPart values. -/
def rcutils_steady_time_now_win32 (nowNull : Bool)
    (cpu_frequency performance_count : Int) (last : Int) :
    rcutils_ret × Option Int × Int :=
  if nowNull then (RCUTILS_RET_INVALID_ARGUMENT, none, last)
  else
    let whole_seconds := Int.tdiv performance_count cpu_frequency
    let remainder_count := Int.tmod performance_count cpu_frequency
    let remainder_ns := Int.tdiv (wrap64 (remainder_count * 1000000000)) cpu_frequency
    let total_seconds_in_ns := wrap64 (whole_seconds * 1000000000)
    let total_ns := wrap64 (total_seconds_in_ns + remainder_ns)
    if decide (remainder_count > INT64_MAX / 1000000000) then
      (RCUTILS_CALCULATION_OVERFLOW, none, last)
    else if decide (whole_seconds > INT64_MAX / 1000000000) then
      (RCUTILS_CALCULATION_OVERFLOW, none, last)
    else if decide (remainder_ns > 0) &&
        decide (total_seconds_in_ns > INT64_MAX - remainder_ns) then
      (RCUTILS_CALCULATION_OVERFLOW, none, last)
    else
      let c := __rcutils_check_steady_time_monotonicity_thread_local total_ns last
      if c.1 = RCUTILS_RET_OK then (RCUTILS_RET_OK, some total_ns, c.2)
      else (c.1, none, c.2)

/-- Function `rcutils_system_time_now` from time_win32.c: the injected `filetime` is
the combined 64-bit `FILETIME` value (100 ns units since 1601). -/
def rcutils_system_time_now_win32 (nowNull : Bool) (filetime : Int) :
    rcutils_ret × Option Int :=
  if nowNull then (RCUTILS_RET_INVALID_ARGUMENT, none)
  else
    let quad := wrap64 (filetime - 116444736000000000)
    if decide (quad > INT64_MAX / 100) then
      (RCUTILS_CALCULATION_OVERFLOW, none)
    else
      (RCUTILS_RET_OK, some (wrap64 (quad * 100)))

/-!
## Sequences of steady reads (native thread-local backend)

`runSteady` folds `rcutils_steady_time_now` (non-null output pointer) over a
list of injected clock samples, threading the calling thread's cell, and
collects each call's (ret code, written output).
-/

/-- Run a sequence of steady-time reads on one thread, starting from cell
value `last`; returns the per-call results and the final cell value. -/
def runSteady : List timespec → Int → List (rcutils_ret × Option Int) × Int
  | [], last => ([], last)
  | ts :: rest, last =>
    let r := rcutils_steady_time_now false ts last
    let t := runSteady rest r.2.2
    ((r.1, r.2.1) :: t.1, t.2)

/-!
## Frame wrapper for the system-time read

The bodies of `rcutils_system_time_now` in time_unix.c and time_win32.c
contain no reference to `__last_steady_timestamp`, to the pthread key, nor
any call into time_common.c; their embeddings therefore take the map of all
threads' monotonicity cells and return it untouched, and the result is a
function of the clock sample alone.
-/

/-- The per-thread last-steady-timestamp cells of all threads (native
thread-local backend): thread id to cell value. -/
structure mono_cells where
  cells : Nat → Int

/-- Function `rcutils_system_time_now` (unix), with the monotonicity state of all
threads threaded through: the source never names that state, so the
embedding returns it unchanged. -/
def rcutils_system_time_now_with_mono_state (nowNull : Bool) (ts : timespec)
    (m : mono_cells) : (rcutils_ret × Option Int) × mono_cells :=
  (rcutils_system_time_now nowNull ts, m)

/-- Function `rcutils_system_time_now` (win32), with the monotonicity state of all
threads threaded through. -/
def rcutils_system_time_now_win32_with_mono_state (nowNull : Bool)
    (filetime : Int) (m : mono_cells) : (rcutils_ret × Option Int) × mono_cells :=
  (rcutils_system_time_now_win32 nowNull filetime, m)

/-!
## Range facts about `wrap64`
-/

theorem wrap64_lb (x : Int) : INT64_MIN ≤ wrap64 x := by
  unfold wrap64 INT64_MIN
  have h : (0:Int) ≤ (x + 2 ^ 63) % 2 ^ 64 := Int.emod_nonneg _ (by norm_num)
  omega

theorem wrap64_ub (x : Int) : wrap64 x ≤ INT64_MAX := by
  unfold wrap64 INT64_MAX
  have h : (x + 2 ^ 63) % 2 ^ 64 < 2 ^ 64 := Int.emod_lt_of_pos _ (by norm_num)
  omega

theorem wrap64_eq_self (x : Int) (h1 : INT64_MIN ≤ x) (h2 : x ≤ INT64_MAX) :
    wrap64 x = x := by
  unfold wrap64
  unfold INT64_MIN at h1
  unfold INT64_MAX at h2
  have h : (x + 2 ^ 63) % 2 ^ 64 = x + 2 ^ 63 :=
    Int.emod_eq_of_lt (by omega) (by omega)
  omega

example : rcutils_system_time_now false ⟨1, 2⟩ = (RCUTILS_RET_OK, some 1000000002) := by
  decide

example : rcutils_steady_time_now false ⟨3, 4⟩ 1000000002 =
    (RCUTILS_RET_OK, some 3000000004, 3000000004) := by decide

example : (rcutils_system_time_now false ⟨9223372037, 0⟩).1 = RCUTILS_RET_ERROR := by
  decide

example : (rcutils_steady_time_now false ⟨9223372037, 0⟩ 0).1 =
    RCUTILS_CALCULATION_OVERFLOW := by decide

/-!
## Helper lemmas
-/

/-- On success the monotonicity check stores the candidate. -/
theorem check_thread_local_ok (candidate last : Int) (h : last ≤ candidate) :
    __rcutils_check_steady_time_monotonicity_thread_local candidate last =
      (RCUTILS_RET_OK, candidate) := by
  unfold __rcutils_check_steady_time_monotonicity_thread_local
  rw [if_neg (by omega)]

/-- The monotonicity check returns either success (storing the candidate) or
the non-monotonic error (with `last > candidate`, leaving the cell alone). -/
theorem check_thread_local_cases (candidate last : Int) :
    __rcutils_check_steady_time_monotonicity_thread_local candidate last =
        (RCUTILS_RET_OK, candidate) ∧ last ≤ candidate
    ∨ __rcutils_check_steady_time_monotonicity_thread_local candidate last =
        (RCUTILS_NON_MONOTONIC_STEADY_TIME, last) ∧ last > candidate := by
  unfold __rcutils_check_steady_time_monotonicity_thread_local
  split
  · right; exact ⟨rfl, by omega⟩
  · left; exact ⟨rfl, by omega⟩

/-- A successful steady read writes exactly the new cell value to `*now`,
and that value is at least the old cell value. -/
theorem steady_ok_step (ts : timespec) (last : Int)
    (h : (rcutils_steady_time_now false ts last).1 = RCUTILS_RET_OK) :
    (rcutils_steady_time_now false ts last).2.1 =
      some (rcutils_steady_time_now false ts last).2.2
    ∧ last ≤ (rcutils_steady_time_now false ts last).2.2 := by
  by_cases hneg : __WOULD_BE_NEGATIVE ts.tv_sec ts.tv_nsec = true
  · unfold rcutils_steady_time_now at h
    simp [hneg] at h
  · by_cases hov : INT64_MAX / 1000000000 < ts.tv_sec ∨
        0 < ts.tv_nsec ∧ INT64_MAX - ts.tv_nsec < wrap64 (ts.tv_sec * 1000000000)
    · unfold rcutils_steady_time_now at h
      simp [hneg, hov] at h
    · rcases check_thread_local_cases
          (wrap64 (wrap64 (ts.tv_sec * 1000000000) + ts.tv_nsec)) last with
        ⟨hc, hle⟩ | ⟨hc, hgt⟩
      · unfold rcutils_steady_time_now
        simp [hneg, hov, hc]
        exact hle
      · unfold rcutils_steady_time_now at h
        simp [hneg, hov, hc] at h


/-- Over a sequence of all-successful steady reads, outputs are pairwise
non-decreasing and bounded below by the starting cell value. -/
theorem runSteady_mono (tss : List timespec) :
    ∀ last : Int,
      (∀ p ∈ (runSteady tss last).1, p.1 = RCUTILS_RET_OK) →
      ((runSteady tss last).1.filterMap Prod.snd).Pairwise (· ≤ ·)
      ∧ ∀ v ∈ (runSteady tss last).1.filterMap Prod.snd, last ≤ v := by
  induction tss with
  | nil => intro last h; simp [runSteady]
  | cons ts rest ih =>
    intro last h
    simp only [runSteady] at h ⊢
    have hhead : (rcutils_steady_time_now false ts last).1 = RCUTILS_RET_OK :=
      h _ (List.mem_cons_self _ _)
    have htail : ∀ p ∈ (runSteady rest
        (rcutils_steady_time_now false ts last).2.2).1, p.1 = RCUTILS_RET_OK :=
      fun p hp => h p (List.mem_cons_of_mem _ hp)
    obtain ⟨hw, hle⟩ := steady_ok_step ts last hhead
    obtain ⟨ihp, ihb⟩ := ih (rcutils_steady_time_now false ts last).2.2 htail
    simp only [List.filterMap_cons, hw]
    constructor
    · exact List.Pairwise.cons (fun v hv => ihb v hv) ihp
    · intro v hv
      rcases List.mem_cons.mp hv with hv | hv
      · omega
      · exact le_trans hle (ihb v hv)

/-!
## Claim theorems
-/

/-- C1: with sanity checks enabled, along any sequence of successful
steady-time reads on a single thread every returned value is greater than
or equal to every previously returned value on that thread, and injecting
into the monotonicity check a candidate strictly smaller than the thread's
last recorded value yields `RCUTILS_NON_MONOTONIC_STEADY_TIME`. -/
theorem C1_steady_reads_non_decreasing :
    (∀ (tss : List timespec) (last : Int),
      (∀ p ∈ (runSteady tss last).1, p.1 = RCUTILS_RET_OK) →
      ((runSteady tss last).1.filterMap Prod.snd).Pairwise (· ≤ ·))
    ∧ (∀ (last candidate : Int), candidate < last →
        __rcutils_check_steady_time_monotonicity_thread_local candidate last =
          (RCUTILS_NON_MONOTONIC_STEADY_TIME, last)) := by
  constructor
  · intro tss last h
    exact (runSteady_mono tss last h).1
  · intro last candidate h
    unfold __rcutils_check_steady_time_monotonicity_thread_local
    rw [if_pos (by omega)]

theorem C1_steady_reads_non_decreasing_witness :
    ((runSteady [⟨1, 2⟩, ⟨3, 4⟩] INT64_MIN).1.filterMap Prod.snd).Pairwise (· ≤ ·)
    ∧ __rcutils_check_steady_time_monotonicity_thread_local 5 10 =
        (RCUTILS_NON_MONOTONIC_STEADY_TIME, 10) :=
  ⟨C1_steady_reads_non_decreasing.1 [⟨1, 2⟩, ⟨3, 4⟩] INT64_MIN (by decide),
   C1_steady_reads_non_decreasing.2 10 5 (by decide)⟩

/-- C2: the monotonicity check fails with the non-monotonic error exactly
when the thread's last recorded timestamp is strictly greater than the
candidate (so an equal candidate is accepted and any decrease is rejected),
and on success the candidate becomes the thread's new last value. -/
theorem C2_check_fails_iff_strict_decrease :
    ∀ (last candidate : Int),
      ((__rcutils_check_steady_time_monotonicity_thread_local candidate last).1 =
          RCUTILS_NON_MONOTONIC_STEADY_TIME ↔ last > candidate)
      ∧ (last ≤ candidate →
          __rcutils_check_steady_time_monotonicity_thread_local candidate last =
            (RCUTILS_RET_OK, candidate)) := by
  intro last candidate
  constructor
  · unfold __rcutils_check_steady_time_monotonicity_thread_local
    split
    · simp_all
    · simp_all
  · exact check_thread_local_ok candidate last

theorem C2_check_fails_iff_strict_decrease_witness :
    (((__rcutils_check_steady_time_monotonicity_thread_local 10 10).1 =
        RCUTILS_NON_MONOTONIC_STEADY_TIME) ↔ (10 : Int) > 10)
    ∧ __rcutils_check_steady_time_monotonicity_thread_local 10 10 =
        (RCUTILS_RET_OK, 10) :=
  ⟨(C2_check_fails_iff_strict_decrease 10 10).1,
   (C2_check_fails_iff_strict_decrease 10 10).2 (by decide)⟩

/-- C5: a system-time read neither reads nor writes any thread's
last-steady-timestamp cell: its result is the same for any two monotonicity
states, and the state after the call is the state before, on both the unix
and the win32 implementation. -/
theorem C5_system_time_frame :
    ∀ (nowNull : Bool) (ts : timespec) (filetime : Int) (m1 m2 : mono_cells),
      (rcutils_system_time_now_with_mono_state nowNull ts m1).1 =
        (rcutils_system_time_now_with_mono_state nowNull ts m2).1
      ∧ (rcutils_system_time_now_with_mono_state nowNull ts m1).2 = m1
      ∧ (rcutils_system_time_now_win32_with_mono_state nowNull filetime m1).1 =
        (rcutils_system_time_now_win32_with_mono_state nowNull filetime m2).1
      ∧ (rcutils_system_time_now_win32_with_mono_state nowNull filetime m1).2 = m1 :=
  fun _ _ _ _ _ => ⟨rfl, rfl, rfl, rfl⟩

/-- C9: on a fresh thread the first steady-time read can never fail with
the non-monotonic error: the cell starts at `INT64_MIN` and the comparison
is strict, on the native backend, on the full unix read, and on the pthread
backend under any injected environment. -/
theorem C9_first_read_never_non_monotonic :
    (∀ candidate : Int, INT64_MIN ≤ candidate →
      (__rcutils_check_steady_time_monotonicity_thread_local candidate INT64_MIN).1 ≠
        RCUTILS_NON_MONOTONIC_STEADY_TIME)
    ∧ (∀ (nowNull : Bool) (ts : timespec),
        (rcutils_steady_time_now nowNull ts INT64_MIN).1 ≠
          RCUTILS_NON_MONOTONIC_STEADY_TIME)
    ∧ (∀ (e : pthread_env) (candidate : Int), INT64_MIN ≤ candidate →
        (__rcutils_check_steady_time_monotonicity_pthread e candidate
            pthread_state.fresh).1 ≠ RCUTILS_NON_MONOTONIC_STEADY_TIME) := by
  refine ⟨?_, ?_, ?_⟩
  · intro candidate h
    unfold __rcutils_check_steady_time_monotonicity_thread_local
    rw [if_neg (by omega)]
    simp
  · intro nowNull ts
    cases nowNull
    · by_cases hneg : __WOULD_BE_NEGATIVE ts.tv_sec ts.tv_nsec = true
      · unfold rcutils_steady_time_now
        simp [hneg]
      · by_cases hov : INT64_MAX / 1000000000 < ts.tv_sec ∨
            0 < ts.tv_nsec ∧ INT64_MAX - ts.tv_nsec < wrap64 (ts.tv_sec * 1000000000)
        · unfold rcutils_steady_time_now
          simp [hneg, hov]
        · have hlb := wrap64_lb (wrap64 (ts.tv_sec * 1000000000) + ts.tv_nsec)
          rcases check_thread_local_cases
              (wrap64 (wrap64 (ts.tv_sec * 1000000000) + ts.tv_nsec)) INT64_MIN with
            ⟨hc, _⟩ | ⟨_, hgt⟩
          · unfold rcutils_steady_time_now
            simp [hneg, hov, hc]
          · omega
    · unfold rcutils_steady_time_now
      simp
  · intro e candidate h
    have hq : ¬ (INT64_MIN > candidate) := by omega
    rcases e with ⟨kc, ao, sr⟩
    cases kc <;> cases ao <;> cases sr <;>
      simp [__rcutils_check_steady_time_monotonicity_pthread,
        __rcutils_time_common_get_last_steady_timestamp_pthread,
        __rcutils_time_common_set_last_steady_timestamp_pthread,
        __ensure_last_steady_timestamp_storage, __make_pthread_keys,
        __set_last_steady_timestamp_ret, pthread_state.fresh,
        default_allocator_id, hq]

theorem C9_first_read_never_non_monotonic_witness :
    (__rcutils_check_steady_time_monotonicity_thread_local 0 INT64_MIN).1 ≠
      RCUTILS_NON_MONOTONIC_STEADY_TIME
    ∧ (rcutils_steady_time_now false ⟨1, 2⟩ INT64_MIN).1 ≠
      RCUTILS_NON_MONOTONIC_STEADY_TIME
    ∧ (__rcutils_check_steady_time_monotonicity_pthread pthread_env.good 0
        pthread_state.fresh).1 ≠ RCUTILS_NON_MONOTONIC_STEADY_TIME :=
  ⟨C9_first_read_never_non_monotonic.1 0 (by decide),
   C9_first_read_never_non_monotonic.2.1 false ⟨1, 2⟩,
   C9_first_read_never_non_monotonic.2.2 pthread_env.good 0 (by decide)⟩

/-- C10: with `RCUTILS_DISABLE_TIME_SANITY_CHECKS` the two reads never
return the overflow code, their only failures are a null output pointer and
a negative sample, and any other sample (out-of-range ones included)
succeeds with the two's-complement-wrapped nanosecond value. -/
theorem C10_sanity_disabled_no_overflow_error :
    ∀ (nowNull : Bool) (ts : timespec),
      (rcutils_system_time_now_sanity_disabled nowNull ts).1 ≠
        RCUTILS_CALCULATION_OVERFLOW
      ∧ (rcutils_steady_time_now_sanity_disabled nowNull ts).1 ≠
        RCUTILS_CALCULATION_OVERFLOW
      ∧ ((rcutils_system_time_now_sanity_disabled nowNull ts).1 ≠ RCUTILS_RET_OK →
          nowNull = true ∨ __WOULD_BE_NEGATIVE ts.tv_sec ts.tv_nsec = true)
      ∧ ((rcutils_steady_time_now_sanity_disabled nowNull ts).1 ≠ RCUTILS_RET_OK →
          nowNull = true ∨ __WOULD_BE_NEGATIVE ts.tv_sec ts.tv_nsec = true)
      ∧ (nowNull = false → __WOULD_BE_NEGATIVE ts.tv_sec ts.tv_nsec = false →
          rcutils_system_time_now_sanity_disabled nowNull ts =
            (RCUTILS_RET_OK,
              some (wrap64 (wrap64 (ts.tv_sec * 1000000000) + ts.tv_nsec)))
          ∧ rcutils_steady_time_now_sanity_disabled nowNull ts =
            (RCUTILS_RET_OK,
              some (wrap64 (wrap64 (ts.tv_sec * 1000000000) + ts.tv_nsec)))) := by
  intro nowNull ts
  unfold rcutils_system_time_now_sanity_disabled rcutils_steady_time_now_sanity_disabled
  cases nowNull <;>
    by_cases hneg : __WOULD_BE_NEGATIVE ts.tv_sec ts.tv_nsec = true <;>
    simp [hneg]

theorem C10_sanity_disabled_no_overflow_error_witness :
    (rcutils_system_time_now_sanity_disabled false ⟨9223372037, 1⟩).1 ≠
      RCUTILS_CALCULATION_OVERFLOW
    ∧ rcutils_steady_time_now_sanity_disabled false ⟨9223372037, 1⟩ =
        (RCUTILS_RET_OK,
          some (wrap64 (wrap64 (9223372037 * 1000000000) + 1))) :=
  ⟨(C10_sanity_disabled_no_overflow_error false ⟨9223372037, 1⟩).1,
   ((C10_sanity_disabled_no_overflow_error false ⟨9223372037, 1⟩).2.2.2.2
      rfl (by decide)).2⟩

/-- C3 counterexample: at the sample with
`tv_sec = INT64_MAX / 1000000000 + 1` (and `tv_nsec = 0`),
`rcutils_system_time_now` does fail, but with the generic
`RCUTILS_RET_ERROR`, not with the overflow code the claim names. -/
theorem C3_system_overflow_code_counterexample :
    (rcutils_system_time_now false ⟨INT64_MAX / 1000000000 + 1, 0⟩).1 =
      RCUTILS_RET_ERROR
    ∧ (rcutils_system_time_now false ⟨INT64_MAX / 1000000000 + 1, 0⟩).1 ≠
      RCUTILS_CALCULATION_OVERFLOW := by
  constructor <;> decide

/-- C3 (amended): whenever the seconds of a non-negative native sample
exceed `INT64_MAX / 10^9`, or the sub-second remainder is positive and the
seconds converted to nanoseconds exceed `INT64_MAX` minus the remainder,
both reads fail without wrapping: the steady-time read with
`RCUTILS_CALCULATION_OVERFLOW`, the system-time read with the generic
`RCUTILS_RET_ERROR` (message "system time overflow"), and neither writes an
output. -/
theorem C3_overflow_always_detected :
    ∀ ts : timespec,
      __WOULD_BE_NEGATIVE ts.tv_sec ts.tv_nsec = false →
      (INT64_MAX / 1000000000 < ts.tv_sec ∨
        (0 < ts.tv_nsec ∧ INT64_MAX - ts.tv_nsec < ts.tv_sec * 1000000000)) →
      rcutils_system_time_now false ts = (RCUTILS_RET_ERROR, none)
      ∧ ∀ last : Int, rcutils_steady_time_now false ts last =
          (RCUTILS_CALCULATION_OVERFLOW, none, last) := by
  intro ts hneg hcond
  have hsec : 0 ≤ ts.tv_sec := by
    unfold __WOULD_BE_NEGATIVE at hneg
    simp at hneg
    omega
  have hov : INT64_MAX / 1000000000 < ts.tv_sec ∨
      0 < ts.tv_nsec ∧ INT64_MAX - ts.tv_nsec < wrap64 (ts.tv_sec * 1000000000) := by
    rcases hcond with hcond | ⟨hns, hcond⟩
    · exact Or.inl hcond
    · by_cases hbig : INT64_MAX / 1000000000 < ts.tv_sec
      · exact Or.inl hbig
      · refine Or.inr ⟨hns, ?_⟩
        have hd : (INT64_MAX / 1000000000) * 1000000000 ≤ INT64_MAX :=
          Int.ediv_mul_le INT64_MAX (by norm_num)
        have hr : wrap64 (ts.tv_sec * 1000000000) = ts.tv_sec * 1000000000 := by
          apply wrap64_eq_self
          · have : (0 : Int) ≤ ts.tv_sec * 1000000000 := by positivity
            unfold INT64_MIN
            omega
          · nlinarith [hd]
        omega
  have hnegf : ¬ (__WOULD_BE_NEGATIVE ts.tv_sec ts.tv_nsec = true) := by
    simp [hneg]
  constructor
  · unfold rcutils_system_time_now
    simp [hnegf, hov]
  · intro last
    unfold rcutils_steady_time_now
    simp [hnegf, hov]

theorem C3_overflow_always_detected_witness :
    rcutils_system_time_now false ⟨9223372037, 0⟩ = (RCUTILS_RET_ERROR, none)
    ∧ rcutils_steady_time_now false ⟨9223372037, 0⟩ 0 =
        (RCUTILS_CALCULATION_OVERFLOW, none, 0) :=
  ⟨(C3_overflow_always_detected ⟨9223372037, 0⟩ (by decide) (by decide)).1,
   (C3_overflow_always_detected ⟨9223372037, 0⟩ (by decide) (by decide)).2 0⟩

/-- C4: on every failing call of a system-time or steady-time read (null
output argument, negative sample, overflow, non-monotonicity, or
allocation/TLS failure), nothing is written to the caller's output
destination; a value is stored only on the success path. -/
theorem C4_no_output_on_failure :
    ∀ (nowNull : Bool) (ts : timespec) (last : Int) (e : pthread_env)
      (s : pthread_state) (cpu_frequency performance_count filetime : Int),
      ((rcutils_system_time_now nowNull ts).1 ≠ RCUTILS_RET_OK →
        (rcutils_system_time_now nowNull ts).2 = none)
      ∧ ((rcutils_system_time_now_win32 nowNull filetime).1 ≠ RCUTILS_RET_OK →
        (rcutils_system_time_now_win32 nowNull filetime).2 = none)
      ∧ ((rcutils_steady_time_now nowNull ts last).1 ≠ RCUTILS_RET_OK →
        (rcutils_steady_time_now nowNull ts last).2.1 = none)
      ∧ ((rcutils_steady_time_now_pthread nowNull ts e s).1 ≠ RCUTILS_RET_OK →
        (rcutils_steady_time_now_pthread nowNull ts e s).2.1 = none)
      ∧ ((rcutils_steady_time_now_win32 nowNull cpu_frequency
            performance_count last).1 ≠ RCUTILS_RET_OK →
        (rcutils_steady_time_now_win32 nowNull cpu_frequency
            performance_count last).2.1 = none) := by
  intro nowNull ts last e s cpu_frequency performance_count filetime
  refine ⟨?_, ?_, ?_, ?_, ?_⟩
  · intro h
    unfold rcutils_system_time_now at h ⊢
    by_cases h1 : nowNull = true <;>
      by_cases h2 : __WOULD_BE_NEGATIVE ts.tv_sec ts.tv_nsec = true <;>
      by_cases h3 : INT64_MAX / 1000000000 < ts.tv_sec ∨
        0 < ts.tv_nsec ∧ INT64_MAX - ts.tv_nsec < wrap64 (ts.tv_sec * 1000000000) <;>
      simp_all
  · intro h
    unfold rcutils_system_time_now_win32 at h ⊢
    by_cases h1 : nowNull = true <;>
      by_cases h2 : INT64_MAX / 100 < wrap64 (filetime - 116444736000000000) <;>
      simp_all
  · intro h
    unfold rcutils_steady_time_now at h ⊢
    by_cases h1 : nowNull = true <;>
      by_cases h2 : __WOULD_BE_NEGATIVE ts.tv_sec ts.tv_nsec = true <;>
      by_cases h3 : INT64_MAX / 1000000000 < ts.tv_sec ∨
        0 < ts.tv_nsec ∧ INT64_MAX - ts.tv_nsec < wrap64 (ts.tv_sec * 1000000000) <;>
      by_cases h4 : (__rcutils_check_steady_time_monotonicity_thread_local
        (wrap64 (wrap64 (ts.tv_sec * 1000000000) + ts.tv_nsec)) last).1 =
          RCUTILS_RET_OK <;>
      simp_all <;>
      rw [if_neg (by push_neg; exact h3)]
  · intro h
    unfold rcutils_steady_time_now_pthread at h ⊢
    by_cases h1 : nowNull = true <;>
      by_cases h2 : __WOULD_BE_NEGATIVE ts.tv_sec ts.tv_nsec = true <;>
      by_cases h3 : INT64_MAX / 1000000000 < ts.tv_sec ∨
        0 < ts.tv_nsec ∧ INT64_MAX - ts.tv_nsec < wrap64 (ts.tv_sec * 1000000000) <;>
      by_cases h4 : (__rcutils_check_steady_time_monotonicity_pthread e
        (wrap64 (wrap64 (ts.tv_sec * 1000000000) + ts.tv_nsec)) s).1 =
          RCUTILS_RET_OK <;>
      simp_all <;>
      rw [if_neg (by push_neg; exact h3)]
  · intro h
    unfold rcutils_steady_time_now_win32 at h ⊢
    by_cases h1 : nowNull = true <;>
      by_cases h2 : INT64_MAX / 1000000000 <
        Int.tmod performance_count cpu_frequency <;>
      by_cases h3 : INT64_MAX / 1000000000 <
        Int.tdiv performance_count cpu_frequency <;>
      by_cases h4 : 0 < Int.tdiv
          (wrap64 (Int.tmod performance_count cpu_frequency * 1000000000))
          cpu_frequency ∧
        INT64_MAX - Int.tdiv
            (wrap64 (Int.tmod performance_count cpu_frequency * 1000000000))
            cpu_frequency <
          wrap64 (Int.tdiv performance_count cpu_frequency * 1000000000) <;>
      by_cases h5 : (__rcutils_check_steady_time_monotonicity_thread_local
        (wrap64 (wrap64 (Int.tdiv performance_count cpu_frequency * 1000000000) +
          Int.tdiv (wrap64 (Int.tmod performance_count cpu_frequency * 1000000000))
            cpu_frequency)) last).1 = RCUTILS_RET_OK <;>
      simp_all <;>
      rw [if_neg (not_lt.mpr h2), if_neg (not_lt.mpr h3),
        if_neg (by push_neg; exact h4)]

theorem C4_no_output_on_failure_witness :
    (rcutils_system_time_now true ⟨1, 2⟩).2 = none
    ∧ (rcutils_system_time_now_win32 true 3).2 = none
    ∧ (rcutils_steady_time_now true ⟨1, 2⟩ 0).2.1 = none
    ∧ (rcutils_steady_time_now_pthread true ⟨1, 2⟩ pthread_env.good
        pthread_state.fresh).2.1 = none
    ∧ (rcutils_steady_time_now_win32 true 1 1 0).2.1 = none :=
  ⟨(C4_no_output_on_failure true ⟨1, 2⟩ 0 pthread_env.good
      pthread_state.fresh 1 1 3).1 (by decide),
   (C4_no_output_on_failure true ⟨1, 2⟩ 0 pthread_env.good
      pthread_state.fresh 1 1 3).2.1 (by decide),
   (C4_no_output_on_failure true ⟨1, 2⟩ 0 pthread_env.good
      pthread_state.fresh 1 1 3).2.2.1 (by decide),
   (C4_no_output_on_failure true ⟨1, 2⟩ 0 pthread_env.good
      pthread_state.fresh 1 1 3).2.2.2.1 (by decide),
   (C4_no_output_on_failure true ⟨1, 2⟩ 0 pthread_env.good
      pthread_state.fresh 1 1 3).2.2.2.2 (by decide)⟩

/-- C6 counterexample: after a one-time key-creation failure (EAGAIN), a
subsequent call in a fully functional environment does not retry the
initialization: it fails again with the recorded error and the thread's
cell stays unset, even though key creation and allocation would now
succeed. -/
theorem C6_key_failure_not_retried_counterexample :
    (__ensure_last_steady_timestamp_storage 1
        { key_create := .eagain, alloc_ok := true, set_result := .success }
        pthread_state.fresh).1 = RCUTILS_RET_ERROR
    ∧ (__ensure_last_steady_timestamp_storage 1 pthread_env.good
        (__ensure_last_steady_timestamp_storage 1
          { key_create := .eagain, alloc_ok := true, set_result := .success }
          pthread_state.fresh).2).1 = RCUTILS_RET_ERROR
    ∧ (__ensure_last_steady_timestamp_storage 1 pthread_env.good
        (__ensure_last_steady_timestamp_storage 1
          { key_create := .eagain, alloc_ok := true, set_result := .success }
          pthread_state.fresh).2).2.cell = none := by
  refine ⟨?_, ?_, ?_⟩ <;> decide

/-- C6 (amended): a per-thread cell allocation failure is reported as
bad-allocation and leaves the thread's cell unset, so a subsequent init or
read retries the allocation and succeeds once the allocator works; a
one-time key-creation failure (EAGAIN mapped to the generic error, ENOMEM
to bad-allocation) also leaves the cell unset, but the failure is recorded
by the once-guard and is permanent: every subsequent call returns the
recorded error without retrying key creation and without touching the
state. -/
theorem C6_storage_failures :
    (∀ (a : Nat) (e : pthread_env) (s : pthread_state),
      s.once_done = true → s.keys_ret = RCUTILS_RET_OK → s.cell = none →
      e.alloc_ok = false →
      __ensure_last_steady_timestamp_storage a e s = (RCUTILS_RET_BAD_ALLOC, s)
      ∧ ∀ (a2 : Nat) (e2 : pthread_env), e2.alloc_ok = true →
          e2.set_result = .success →
          (__ensure_last_steady_timestamp_storage a2 e2 s).1 = RCUTILS_RET_OK
          ∧ (__ensure_last_steady_timestamp_storage a2 e2 s).2.cell =
            some { timestamp := INT64_MIN, self_allocator := a2 })
    ∧ (∀ (a : Nat) (e : pthread_env) (s : pthread_state),
      s.once_done = false → s.cell = none →
      (e.key_create = .eagain ∨ e.key_create = .enomem) →
      (__ensure_last_steady_timestamp_storage a e s).1 =
          __make_pthread_keys e.key_create
      ∧ __make_pthread_keys e.key_create ≠ RCUTILS_RET_OK
      ∧ (__ensure_last_steady_timestamp_storage a e s).2.cell = none
      ∧ ∀ (a2 : Nat) (e2 : pthread_env),
          __ensure_last_steady_timestamp_storage a2 e2
              (__ensure_last_steady_timestamp_storage a e s).2 =
            ((__ensure_last_steady_timestamp_storage a e s).1,
              (__ensure_last_steady_timestamp_storage a e s).2)) := by
  constructor
  · intro a e s h1 h2 h3 h4
    constructor
    · unfold __ensure_last_steady_timestamp_storage
      simp [h1, h2, h3, h4]
    · intro a2 e2 h5 h6
      unfold __ensure_last_steady_timestamp_storage
      rcases e2 with ⟨kc2, ao2, sr2⟩
      simp at h5 h6
      subst h5 h6
      simp [h1, h2, h3]
  · intro a e s h1 h2 hk
    rcases s with ⟨od, kr, cell, d⟩
    rcases e with ⟨kc, ao, sr⟩
    simp at h1 h2
    subst h1 h2
    rcases hk with hk | hk
    · replace hk : kc = key_create_result.eagain := hk
      subst hk
      simp [__ensure_last_steady_timestamp_storage, __make_pthread_keys]
    · replace hk : kc = key_create_result.enomem := hk
      subst hk
      simp [__ensure_last_steady_timestamp_storage, __make_pthread_keys]

theorem C6_storage_failures_witness :
    (__ensure_last_steady_timestamp_storage 1
        { key_create := .success, alloc_ok := false, set_result := .success }
        { once_done := true, keys_ret := RCUTILS_RET_OK, cell := none,
          deallocs := 0 } =
      (RCUTILS_RET_BAD_ALLOC,
        { once_done := true, keys_ret := RCUTILS_RET_OK, cell := none,
          deallocs := 0 }))
    ∧ (__ensure_last_steady_timestamp_storage 2 pthread_env.good
        { once_done := true, keys_ret := RCUTILS_RET_OK, cell := none,
          deallocs := 0 }).2.cell =
      some { timestamp := INT64_MIN, self_allocator := 2 }
    ∧ (__ensure_last_steady_timestamp_storage 1
        { key_create := .enomem, alloc_ok := true, set_result := .success }
        pthread_state.fresh).1 = RCUTILS_RET_BAD_ALLOC :=
  ⟨(C6_storage_failures.1 1
      { key_create := .success, alloc_ok := false, set_result := .success }
      { once_done := true, keys_ret := RCUTILS_RET_OK, cell := none,
        deallocs := 0 } rfl rfl rfl rfl).1,
   ((C6_storage_failures.1 1
      { key_create := .success, alloc_ok := false, set_result := .success }
      { once_done := true, keys_ret := RCUTILS_RET_OK, cell := none,
        deallocs := 0 } rfl rfl rfl rfl).2 2 pthread_env.good rfl rfl).2,
   by
    have h := (C6_storage_failures.2 1
      { key_create := .enomem, alloc_ok := true, set_result := .success }
      pthread_state.fresh rfl rfl (Or.inr rfl)).1
    rw [h]
    decide⟩

/-- C7: the lifecycle hooks are idempotent on the pthread backend: init on
a thread whose cell already exists is a no-op returning success; fini
succeeds on any state and a second fini right after is a no-op returning
success with the state (so the deallocation count) unchanged — no double
release; fini on a fresh thread that never initialized is a no-op
returning success. -/
theorem C7_init_fini_idempotent :
    (∀ (a : Nat) (e : pthread_env) (s : pthread_state)
       (c : __last_steady_timestamp_storage_t),
       s.once_done = true → s.keys_ret = RCUTILS_RET_OK → s.cell = some c →
       rcutils_steady_time_now_thread_specific_init a e s = (RCUTILS_RET_OK, s))
    ∧ (∀ s : pthread_state,
        (rcutils_steady_time_now_thread_specific_fini .success s).1 =
          RCUTILS_RET_OK
        ∧ rcutils_steady_time_now_thread_specific_fini .success
            (rcutils_steady_time_now_thread_specific_fini .success s).2 =
          (RCUTILS_RET_OK,
            (rcutils_steady_time_now_thread_specific_fini .success s).2))
    ∧ rcutils_steady_time_now_thread_specific_fini .success pthread_state.fresh =
        (RCUTILS_RET_OK, pthread_state.fresh) := by
  refine ⟨?_, ?_, ?_⟩
  · intro a e s c h1 h2 h3
    unfold rcutils_steady_time_now_thread_specific_init
      __ensure_last_steady_timestamp_storage
    simp [h1, h2, h3]
  · intro s
    rcases s with ⟨od, kr, cell, d⟩
    rcases cell with _ | c <;>
      simp [rcutils_steady_time_now_thread_specific_fini,
        __destroy_last_steady_timestamp_storage]
  · rfl

theorem C7_init_fini_idempotent_witness :
    rcutils_steady_time_now_thread_specific_init 1 pthread_env.good
        { once_done := true, keys_ret := RCUTILS_RET_OK,
          cell := some { timestamp := 5, self_allocator := 1 }, deallocs := 0 } =
      (RCUTILS_RET_OK,
        { once_done := true, keys_ret := RCUTILS_RET_OK,
          cell := some { timestamp := 5, self_allocator := 1 }, deallocs := 0 })
    ∧ (rcutils_steady_time_now_thread_specific_fini .success
        { once_done := true, keys_ret := RCUTILS_RET_OK,
          cell := some { timestamp := 5, self_allocator := 1 },
          deallocs := 0 }).1 = RCUTILS_RET_OK :=
  ⟨C7_init_fini_idempotent.1 1 pthread_env.good
      { once_done := true, keys_ret := RCUTILS_RET_OK,
        cell := some { timestamp := 5, self_allocator := 1 }, deallocs := 0 }
      { timestamp := 5, self_allocator := 1 } rfl rfl rfl,
   (C7_init_fini_idempotent.2.1
      { once_done := true, keys_ret := RCUTILS_RET_OK,
        cell := some { timestamp := 5, self_allocator := 1 },
        deallocs := 0 }).1⟩

/-- C8: after a steady read recording `t0` and a successful fini, the next
init re-creates the thread's cell at `INT64_MIN`, and the next monotonicity
check accepts a candidate `t1` smaller than the previously recorded `t0`
without error: the fini deliberately discards the thread's regression
history. -/
theorem C8_fini_resets_regression_history :
    ∀ (t0 t1 : Int) (a : Nat),
      INT64_MIN ≤ t0 → INT64_MIN ≤ t1 → t1 < t0 →
      (__rcutils_check_steady_time_monotonicity_pthread pthread_env.good t0
          pthread_state.fresh).1 = RCUTILS_RET_OK
      ∧ (rcutils_steady_time_now_thread_specific_fini .success
            (__rcutils_check_steady_time_monotonicity_pthread pthread_env.good t0
              pthread_state.fresh).2).1 = RCUTILS_RET_OK
      ∧ (rcutils_steady_time_now_thread_specific_init a pthread_env.good
            (rcutils_steady_time_now_thread_specific_fini .success
              (__rcutils_check_steady_time_monotonicity_pthread pthread_env.good t0
                pthread_state.fresh).2).2).2.cell =
          some { timestamp := INT64_MIN, self_allocator := a }
      ∧ (__rcutils_check_steady_time_monotonicity_pthread pthread_env.good t1
            (rcutils_steady_time_now_thread_specific_fini .success
              (__rcutils_check_steady_time_monotonicity_pthread pthread_env.good t0
                pthread_state.fresh).2).2).1 = RCUTILS_RET_OK := by
  intro t0 t1 a h0 h1 hlt
  have hq0 : ¬ (INT64_MIN > t0) := by omega
  have hq1 : ¬ (INT64_MIN > t1) := by omega
  refine ⟨?_, ?_, ?_, ?_⟩ <;>
    simp [__rcutils_check_steady_time_monotonicity_pthread,
      __rcutils_time_common_get_last_steady_timestamp_pthread,
      __rcutils_time_common_set_last_steady_timestamp_pthread,
      __ensure_last_steady_timestamp_storage,
      rcutils_steady_time_now_thread_specific_fini,
      rcutils_steady_time_now_thread_specific_init,
      __destroy_last_steady_timestamp_storage,
      __make_pthread_keys, __set_last_steady_timestamp_ret,
      pthread_state.fresh, pthread_env.good, default_allocator_id, hq0, hq1]

theorem C8_fini_resets_regression_history_witness :
    (__rcutils_check_steady_time_monotonicity_pthread pthread_env.good 100
        pthread_state.fresh).1 = RCUTILS_RET_OK
    ∧ (__rcutils_check_steady_time_monotonicity_pthread pthread_env.good 5
          (rcutils_steady_time_now_thread_specific_fini .success
            (__rcutils_check_steady_time_monotonicity_pthread pthread_env.good 100
              pthread_state.fresh).2).2).1 = RCUTILS_RET_OK :=
  ⟨(C8_fini_resets_regression_history 100 5 7 (by decide) (by decide)
      (by decide)).1,
   (C8_fini_resets_regression_history 100 5 7 (by decide) (by decide)
      (by decide)).2.2.2⟩
